import Mathlib

/-!
Shallow embedding of `src/src/types.rs` of the `ti154` crate: decoders for
IEEE 802.15.4 / Wi-SUN MAC wire values read from a byte cursor.

Bytes are modelled as `Nat` values (wire bytes are below 256).  The Rust
`std::io::Cursor<&[u8]>` is a position over an immutable buffer; the crate
reads from it through two distinct APIs whose failure behaviour differs:

* `bytes::Buf::get_u8` / `get_u16_le` (used by every scalar code decoder)
  PANIC when fewer bytes than requested remain; they cannot report an error
  value.  We model them as `Option`-returning readers where `none` marks the
  panic condition, and a decoder built on them maps that `none` to the
  `DResult.panicked` outcome.
* `std::io::Read::read_exact` (used by the fixed-width byte fields) returns
  an `io::Error` when fewer bytes remain, which the crate maps to
  `Error::NotEnoughBytes`; the cursor is not advanced on that failure.
-/

set_option autoImplicit false

/-- Embeds `std::io::Cursor<&[u8]>`: an immutable byte buffer plus a
position. -/
structure Cursor where
  data : List Nat
  pos : Nat
  deriving DecidableEq, Repr

/-- Bytes remaining in the cursor (`bytes::Buf::remaining`). -/
def Cursor.remaining (c : Cursor) : Nat :=
  c.data.length - c.pos

/-- Embeds `bytes::Buf::get_u8` on a slice cursor: returns the byte at the
current position and the advanced cursor; `none` models the panic that
`get_u8` raises when no byte remains. -/
def Cursor.getU8 (c : Cursor) : Option (Nat × Cursor) :=
  match c.data[c.pos]? with
  | some b => some (b, ⟨c.data, c.pos + 1⟩)
  | none => none

/-- Embeds `bytes::Buf::get_u16_le`: reads two bytes, combining them as a
little-endian 16-bit value; `none` models the panic raised when fewer than
two bytes remain. -/
def Cursor.getU16le (c : Cursor) : Option (Nat × Cursor) :=
  match c.data[c.pos]?, c.data[c.pos + 1]? with
  | some b0, some b1 => some (b0 + 256 * b1, ⟨c.data, c.pos + 2⟩)
  | _, _ => none

/-- Embeds `std::io::Read::read_exact` of `n` bytes on a slice cursor:
either all `n` bytes are available (returned in wire order, cursor advanced
by `n`) or the call fails (`none`, modelling `ErrorKind::UnexpectedEof`)
without advancing the cursor. -/
def Cursor.readExact (c : Cursor) (n : Nat) : Option (List Nat × Cursor) :=
  if c.pos + n ≤ c.data.length then
    some ((c.data.drop c.pos).take n, ⟨c.data, c.pos + n⟩)
  else
    none

/-- Modelled from the spec: `crate::error::Error` lives in `src/error.rs`,
which is not part of the sources provided; its variants are taken from §7 of
the specification, restricted to exactly the constructors that
`src/src/types.rs` applies. -/
inductive Error where
  | NotEnoughBytes
  | InvalidStatus (v : Nat)
  | InvalidAddressMode (v : Nat)
  | InvalidTxOption (v : Nat)
  | InvalidSecurityLevel (v : Nat)
  | InvalidKeyIdMode (v : Nat)
  | InvalidFrameType (v : Nat)
  | InvalidAssociationStatus (v : Nat)
  | InvalidDisassociationReason (v : Nat)
  | InvalidMACPIBAttributeId (v : Nat)
  | InvalidFHPIBAttributeId (v : Nat)
  | InvalidSecurityPIBAttributeId (v : Nat)
  | InvalidScanType (v : Nat)
  | InvalidPhyId (v : Nat)
  deriving DecidableEq, Repr

/-- Outcome of running one Rust decode call: a value, a returned
`Err(Error)`, or a panic (raised by the `bytes::Buf` getters on
underflow). -/
inductive DResult (α : Type) where
  | ok : α → DResult α
  | err : Error → DResult α
  | panicked : DResult α
  deriving DecidableEq, Repr

/-- The `Status` enum (`types.rs` lines 9-68), wire codes as in the source. -/
inductive Status where
  | Success
  | Unsupported
  | BadState
  | NoResources
  | RPCCommandSubsystemError
  | RPCCommandIdError
  | RPCCommandLengthError
  | RPCCommandUnsupportedType
  | FHAPIError
  | FHAPINotSupportedIE
  | FHAPINotInAsync
  | FHAPINoEntryInTheNeighbor
  | FHAPIOutSlot
  | FHAPIInvalidAddress
  | FHAPIInvalidFormat
  | FHAPINotSupportedPIB
  | FHAPIReadOnlyPIB
  | FHAPIInvalidParamPIB
  | FHAPIInvalidFrameType
  | FHAPIExpiredNode
  | CounterError
  | ImproperKeyType
  | ImproperSecurityLevel
  | UnsupportedLegacy
  | UnsupportedSecurity
  | BeaconLoss
  | ChannelAccessFailure
  | Denied
  | DisableTRXFailure
  | SecurityError
  | FrameTooLong
  | InvalidGTS
  | InvalidHandle
  | InvalidParameter
  | NoAck
  | NoBeacon
  | NoData
  | NoShortAddress
  | OutOfCAP
  | PANIdConflict
  | Realignment
  | TransactionExpired
  | TransactionOverflow
  | TxActive
  | UnavailableKey
  | UnsupportedAttribute
  | InvalidAddress
  | OnTimeTooLong
  | PastTime
  | TrackingOff
  | InvalidIndex
  | LimitReached
  | ReadOnly
  | ScanInProgress
  | SuperframeOverlap
  | AutoAckPendingAllOn
  | AutoAckPendingAllOff
  deriving DecidableEq, Repr

/-- `FromPrimitive::from_u8` for `Status`: the discriminant table of the
`Status` enum in `types.rs`. -/
def Status.fromU8 (v : Nat) : Option Status :=
  match v with
  | 0x00 => some .Success
  | 0x18 => some .Unsupported
  | 0x19 => some .BadState
  | 0x1A => some .NoResources
  | 0x25 => some .RPCCommandSubsystemError
  | 0x26 => some .RPCCommandIdError
  | 0x27 => some .RPCCommandLengthError
  | 0x28 => some .RPCCommandUnsupportedType
  | 0x61 => some .FHAPIError
  | 0x62 => some .FHAPINotSupportedIE
  | 0x63 => some .FHAPINotInAsync
  | 0x64 => some .FHAPINoEntryInTheNeighbor
  | 0x65 => some .FHAPIOutSlot
  | 0x66 => some .FHAPIInvalidAddress
  | 0x67 => some .FHAPIInvalidFormat
  | 0x68 => some .FHAPINotSupportedPIB
  | 0x69 => some .FHAPIReadOnlyPIB
  | 0x6A => some .FHAPIInvalidParamPIB
  | 0x6B => some .FHAPIInvalidFrameType
  | 0x6C => some .FHAPIExpiredNode
  | 0xDB => some .CounterError
  | 0xDC => some .ImproperKeyType
  | 0xDD => some .ImproperSecurityLevel
  | 0xDE => some .UnsupportedLegacy
  | 0xDF => some .UnsupportedSecurity
  | 0xE0 => some .BeaconLoss
  | 0xE1 => some .ChannelAccessFailure
  | 0xE2 => some .Denied
  | 0xE3 => some .DisableTRXFailure
  | 0xE4 => some .SecurityError
  | 0xE5 => some .FrameTooLong
  | 0xE6 => some .InvalidGTS
  | 0xE7 => some .InvalidHandle
  | 0xE8 => some .InvalidParameter
  | 0xE9 => some .NoAck
  | 0xEA => some .NoBeacon
  | 0xEB => some .NoData
  | 0xEC => some .NoShortAddress
  | 0xED => some .OutOfCAP
  | 0xEE => some .PANIdConflict
  | 0xEF => some .Realignment
  | 0xF0 => some .TransactionExpired
  | 0xF1 => some .TransactionOverflow
  | 0xF2 => some .TxActive
  | 0xF3 => some .UnavailableKey
  | 0xF4 => some .UnsupportedAttribute
  | 0xF5 => some .InvalidAddress
  | 0xF6 => some .OnTimeTooLong
  | 0xF7 => some .PastTime
  | 0xF8 => some .TrackingOff
  | 0xF9 => some .InvalidIndex
  | 0xFA => some .LimitReached
  | 0xFB => some .ReadOnly
  | 0xFC => some .ScanInProgress
  | 0xFD => some .SuperframeOverlap
  | 0xFE => some .AutoAckPendingAllOn
  | 0xFF => some .AutoAckPendingAllOff
  | _ => none

/-- `impl TryFrom<&mut Cursor<&[u8]>> for Status` (`types.rs` 70-76):
`let value = cursor.get_u8();` (panics on underflow) then
`FromPrimitive::from_u8(value).ok_or(Error::InvalidStatus(value))`. -/
def Status.tryFrom (c : Cursor) : DResult (Status × Cursor) :=
  match c.getU8 with
  | none => .panicked
  | some (v, c') =>
    match Status.fromU8 v with
    | some s => .ok (s, c')
    | none => .err (.InvalidStatus v)

example : Status.tryFrom ⟨[0x00], 0⟩ = .ok (.Success, ⟨[0x00], 1⟩) := by rfl
example : Status.tryFrom ⟨[0x05], 0⟩ = .err (.InvalidStatus 5) := by rfl
example : Status.tryFrom ⟨[], 0⟩ = .panicked := by rfl

/-- The `AddressMode` enum (`types.rs` 78-82). -/
inductive AddressMode where
  | Addr16Bit
  | Addr64Bit
  deriving DecidableEq, Repr

/-- `FromPrimitive::from_u8` for `AddressMode`. -/
def AddressMode.fromU8 (v : Nat) : Option AddressMode :=
  match v with
  | 0x02 => some .Addr16Bit
  | 0x03 => some .Addr64Bit
  | _ => none

/-- `impl TryFrom<&mut Cursor<&[u8]>> for AddressMode` (`types.rs` 84-90). -/
def AddressMode.tryFrom (c : Cursor) : DResult (AddressMode × Cursor) :=
  match c.getU8 with
  | none => .panicked
  | some (v, c') =>
    match AddressMode.fromU8 v with
    | some s => .ok (s, c')
    | none => .err (.InvalidAddressMode v)

/-- `ShortAddress` (`types.rs` 92-95): a 2-byte address stored in
display order. -/
structure ShortAddress where
  address : List Nat
  deriving DecidableEq, Repr

/-- `impl TryFrom<&mut Cursor<&[u8]>> for ShortAddress` (`types.rs`
97-107): `read_exact` into a 2-byte array (`NotEnoughBytes` on failure),
then `address.reverse()`. -/
def ShortAddress.tryFrom (c : Cursor) : DResult (ShortAddress × Cursor) :=
  match c.readExact 2 with
  | none => .err .NotEnoughBytes
  | some (bs, c') => .ok (⟨bs.reverse⟩, c')

/-- `ExtendedAddress` (`types.rs` 109-112): an 8-byte address stored in
display order. -/
structure ExtendedAddress where
  address : List Nat
  deriving DecidableEq, Repr

/-- `impl TryFrom<&mut Cursor<&[u8]>> for ExtendedAddress` (`types.rs`
114-124): `read_exact` into an 8-byte array (`NotEnoughBytes` on failure),
then `address.reverse()`. -/
def ExtendedAddress.tryFrom (c : Cursor) : DResult (ExtendedAddress × Cursor) :=
  match c.readExact 8 with
  | none => .err .NotEnoughBytes
  | some (bs, c') => .ok (⟨bs.reverse⟩, c')

/-- The `Address` tagged union (`types.rs` 126-130). -/
inductive Address where
  | Addr16Bit : ShortAddress → Address
  | Addr64Bit : ExtendedAddress → Address
  deriving DecidableEq, Repr

/-- `impl TryFrom<&mut Cursor<&[u8]>> for Address` (`types.rs` 132-151):
decode an `AddressMode`, propagating its failure; `read_exact` a full
8-byte field (`NotEnoughBytes` on failure) and reverse it; for
`Addr16Bit` keep `[address[6], address[7]]` of the reversed field, for
`Addr64Bit` keep the whole reversed field.  The reversed field always has
length 8, so the `getD` defaults below are never used. -/
def Address.tryFrom (c : Cursor) : DResult (Address × Cursor) :=
  match AddressMode.tryFrom c with
  | .panicked => .panicked
  | .err e => .err e
  | .ok (address_mode, c') =>
    match c'.readExact 8 with
    | none => .err .NotEnoughBytes
    | some (bs, c'') =>
      let address := bs.reverse
      let result :=
        match address_mode with
        | .Addr16Bit => Address.Addr16Bit ⟨[address.getD 6 0, address.getD 7 0]⟩
        | .Addr64Bit => Address.Addr64Bit ⟨address⟩
      .ok (result, c'')

example : Address.tryFrom ⟨[0x02, 1, 2, 3, 4, 5, 6, 7, 8], 0⟩ =
    .ok (.Addr16Bit ⟨[2, 1]⟩, ⟨[0x02, 1, 2, 3, 4, 5, 6, 7, 8], 9⟩) := by rfl

/-- The `TxOption` enum (`types.rs` 153-184). -/
inductive TxOption where
  | NoAck
  | Ack
  | GTS
  | Indirect
  | PendBit
  | NoRetrans
  | NoCNF
  | AltBE
  | PwrChan
  deriving DecidableEq, Repr

/-- `FromPrimitive::from_u8` for `TxOption`. -/
def TxOption.fromU8 (v : Nat) : Option TxOption :=
  match v with
  | 0x00 => some .NoAck
  | 0x01 => some .Ack
  | 0x02 => some .GTS
  | 0x04 => some .Indirect
  | 0x08 => some .PendBit
  | 0x10 => some .NoRetrans
  | 0x20 => some .NoCNF
  | 0x40 => some .AltBE
  | 0x80 => some .PwrChan
  | _ => none

/-- `impl TryFrom<&mut Cursor<&[u8]>> for TxOption` (`types.rs` 186-192). -/
def TxOption.tryFrom (c : Cursor) : DResult (TxOption × Cursor) :=
  match c.getU8 with
  | none => .panicked
  | some (v, c') =>
    match TxOption.fromU8 v with
    | some s => .ok (s, c')
    | none => .err (.InvalidTxOption v)

/-- The `SecurityLevel` enum (`types.rs` 194-204). -/
inductive SecurityLevel where
  | NoSecurity
  | MIC32Auth
  | MIC64Auth
  | MIC128Auth
  | AESEncryption
  | AESEncryptionMIC32
  | AESEncryptionMIC64
  | AESEncryptionMIC128
  deriving DecidableEq, Repr

/-- `FromPrimitive::from_u8` for `SecurityLevel`. -/
def SecurityLevel.fromU8 (v : Nat) : Option SecurityLevel :=
  match v with
  | 0x00 => some .NoSecurity
  | 0x01 => some .MIC32Auth
  | 0x02 => some .MIC64Auth
  | 0x03 => some .MIC128Auth
  | 0x04 => some .AESEncryption
  | 0x05 => some .AESEncryptionMIC32
  | 0x06 => some .AESEncryptionMIC64
  | 0x07 => some .AESEncryptionMIC128
  | _ => none

/-- `impl TryFrom<&mut Cursor<&[u8]>> for SecurityLevel` (`types.rs`
206-212). -/
def SecurityLevel.tryFrom (c : Cursor) : DResult (SecurityLevel × Cursor) :=
  match c.getU8 with
  | none => .panicked
  | some (v, c') =>
    match SecurityLevel.fromU8 v with
    | some s => .ok (s, c')
    | none => .err (.InvalidSecurityLevel v)

/-- The `KeyIdMode` enum (`types.rs` 214-220). -/
inductive KeyIdMode where
  | NotUsed
  | Key1ByteIndex
  | Key4ByteIndex
  | Key8ByteIndex
  deriving DecidableEq, Repr

/-- `FromPrimitive::from_u8` for `KeyIdMode`. -/
def KeyIdMode.fromU8 (v : Nat) : Option KeyIdMode :=
  match v with
  | 0x00 => some .NotUsed
  | 0x01 => some .Key1ByteIndex
  | 0x02 => some .Key4ByteIndex
  | 0x03 => some .Key8ByteIndex
  | _ => none

/-- `impl TryFrom<&mut Cursor<&[u8]>> for KeyIdMode` (`types.rs` 222-228). -/
def KeyIdMode.tryFrom (c : Cursor) : DResult (KeyIdMode × Cursor) :=
  match c.getU8 with
  | none => .panicked
  | some (v, c') =>
    match KeyIdMode.fromU8 v with
    | some s => .ok (s, c')
    | none => .err (.InvalidKeyIdMode v)

/-- `KeySource` (`types.rs` 230-233): 8 bytes of key material in display
order. -/
structure KeySource where
  key : List Nat
  deriving DecidableEq, Repr

/-- `impl TryFrom<&mut Cursor<&[u8]>> for KeySource` (`types.rs` 235-245):
`read_exact` into an 8-byte array (`NotEnoughBytes` on failure), then
`key.reverse()`. -/
def KeySource.tryFrom (c : Cursor) : DResult (KeySource × Cursor) :=
  match c.readExact 8 with
  | none => .err .NotEnoughBytes
  | some (bs, c') => .ok (⟨bs.reverse⟩, c')

/-- The `WiSUNAsyncFrameType` enum (`types.rs` 247-257); note the valid
wire code `0xFF` named `Invalid`. -/
inductive WiSUNAsyncFrameType where
  | PANAdvert
  | PANAdvertSOL
  | PANConfig
  | PANConfigSOL
  | Data
  | Ack
  | EAPOL
  | Invalid
  deriving DecidableEq, Repr

/-- `FromPrimitive::from_u8` for `WiSUNAsyncFrameType`. -/
def WiSUNAsyncFrameType.fromU8 (v : Nat) : Option WiSUNAsyncFrameType :=
  match v with
  | 0x00 => some .PANAdvert
  | 0x01 => some .PANAdvertSOL
  | 0x02 => some .PANConfig
  | 0x03 => some .PANConfigSOL
  | 0x04 => some .Data
  | 0x05 => some .Ack
  | 0x06 => some .EAPOL
  | 0xFF => some .Invalid
  | _ => none

/-- `impl TryFrom<&mut Cursor<&[u8]>> for WiSUNAsyncFrameType` (`types.rs`
259-265). -/
def WiSUNAsyncFrameType.tryFrom (c : Cursor) : DResult (WiSUNAsyncFrameType × Cursor) :=
  match c.getU8 with
  | none => .panicked
  | some (v, c') =>
    match WiSUNAsyncFrameType.fromU8 v with
    | some s => .ok (s, c')
    | none => .err (.InvalidFrameType v)

/-- The `AssociationStatus` enum (`types.rs` 267-272). -/
inductive AssociationStatus where
  | Successful
  | PANAtCapacity
  | PANAccessDenied
  deriving DecidableEq, Repr

/-- `FromPrimitive::from_u8` for `AssociationStatus`. -/
def AssociationStatus.fromU8 (v : Nat) : Option AssociationStatus :=
  match v with
  | 0x00 => some .Successful
  | 0x01 => some .PANAtCapacity
  | 0x02 => some .PANAccessDenied
  | _ => none

/-- `impl TryFrom<&mut Cursor<&[u8]>> for AssociationStatus` (`types.rs`
274-280). -/
def AssociationStatus.tryFrom (c : Cursor) : DResult (AssociationStatus × Cursor) :=
  match c.getU8 with
  | none => .panicked
  | some (v, c') =>
    match AssociationStatus.fromU8 v with
    | some s => .ok (s, c')
    | none => .err (.InvalidAssociationStatus v)

/-- The `DisassociateReason` enum (`types.rs` 282-287). -/
inductive DisassociateReason where
  | Reserved
  | CoorWishesDevLeave
  | DevWishesLeave
  deriving DecidableEq, Repr

/-- `FromPrimitive::from_u8` for `DisassociateReason`. -/
def DisassociateReason.fromU8 (v : Nat) : Option DisassociateReason :=
  match v with
  | 0x00 => some .Reserved
  | 0x01 => some .CoorWishesDevLeave
  | 0x02 => some .DevWishesLeave
  | _ => none

/-- `impl TryFrom<&mut Cursor<&[u8]>> for DisassociateReason` (`types.rs`
289-295). -/
def DisassociateReason.tryFrom (c : Cursor) : DResult (DisassociateReason × Cursor) :=
  match c.getU8 with
  | none => .panicked
  | some (v, c') =>
    match DisassociateReason.fromU8 v with
    | some s => .ok (s, c')
    | none => .err (.InvalidDisassociationReason v)

/-- The `MACPIBAttributeId` enum (`types.rs` 297-346). -/
inductive MACPIBAttributeId where
  | AckWaitDuration
  | AssociationPermit
  | AutoRequest
  | BattLifeExt
  | BattLeftExtPeriods
  | BeaconPayload
  | BeaconPayloadLength
  | BeaconOrder
  | BeaconTxTime
  | BSN
  | CoordExtendedAddress
  | CoordShortAddress
  | DSN
  | GTSPermit
  | MaxCSMABackoffs
  | MinBE
  | PANId
  | PromiscuousMode
  | RxOnWhenIdle
  | ShortAddress
  | SuperframeOrder
  | TransactionPersistenceTime
  | AssociatedPANCoord
  | MaxBE
  | FrameTotalWaitTime
  | MaxFrameRetries
  | ResponseWaitTime
  | SyncSymbolOffset
  | TimestampSupported
  | SecurityEnabled
  | EBSN
  | EBeaconOrder
  | EBeaconOrderNBPAN
  | OffsetTimeslot
  | IncludeMPMIE
  | PhyFSKPreambleLen
  | PhyMRFSKSFD
  | PhyTransmitPowerSigned
  | LogicalChannel
  | ExtendedAddress
  | AltBE
  | DeviceBeaconOrder
  | RF4CEPowerSavings
  | FrameVersionSupport
  | ChannelPage
  | PhyCurrentDescriptorId
  | FCSType
  deriving DecidableEq, Repr

/-- `FromPrimitive::from_u8` for `MACPIBAttributeId`. -/
def MACPIBAttributeId.fromU8 (v : Nat) : Option MACPIBAttributeId :=
  match v with
  | 0x40 => some .AckWaitDuration
  | 0x41 => some .AssociationPermit
  | 0x42 => some .AutoRequest
  | 0x43 => some .BattLifeExt
  | 0x44 => some .BattLeftExtPeriods
  | 0x45 => some .BeaconPayload
  | 0x46 => some .BeaconPayloadLength
  | 0x47 => some .BeaconOrder
  | 0x48 => some .BeaconTxTime
  | 0x49 => some .BSN
  | 0x4A => some .CoordExtendedAddress
  | 0x4B => some .CoordShortAddress
  | 0x4C => some .DSN
  | 0x4D => some .GTSPermit
  | 0x4E => some .MaxCSMABackoffs
  | 0x4F => some .MinBE
  | 0x50 => some .PANId
  | 0x51 => some .PromiscuousMode
  | 0x52 => some .RxOnWhenIdle
  | 0x53 => some .ShortAddress
  | 0x54 => some .SuperframeOrder
  | 0x55 => some .TransactionPersistenceTime
  | 0x56 => some .AssociatedPANCoord
  | 0x57 => some .MaxBE
  | 0x58 => some .FrameTotalWaitTime
  | 0x59 => some .MaxFrameRetries
  | 0x5A => some .ResponseWaitTime
  | 0x5B => some .SyncSymbolOffset
  | 0x5C => some .TimestampSupported
  | 0x5D => some .SecurityEnabled
  | 0x5E => some .EBSN
  | 0x5F => some .EBeaconOrder
  | 0x60 => some .EBeaconOrderNBPAN
  | 0x61 => some .OffsetTimeslot
  | 0x62 => some .IncludeMPMIE
  | 0x63 => some .PhyFSKPreambleLen
  | 0x64 => some .PhyMRFSKSFD
  | 0xE0 => some .PhyTransmitPowerSigned
  | 0xE1 => some .LogicalChannel
  | 0xE2 => some .ExtendedAddress
  | 0xE3 => some .AltBE
  | 0xE4 => some .DeviceBeaconOrder
  | 0xE5 => some .RF4CEPowerSavings
  | 0xE6 => some .FrameVersionSupport
  | 0xE7 => some .ChannelPage
  | 0xE8 => some .PhyCurrentDescriptorId
  | 0xE9 => some .FCSType
  | _ => none

/-- `impl TryFrom<&mut Cursor<&[u8]>> for MACPIBAttributeId` (`types.rs`
348-354). -/
def MACPIBAttributeId.tryFrom (c : Cursor) : DResult (MACPIBAttributeId × Cursor) :=
  match c.getU8 with
  | none => .panicked
  | some (v, c') =>
    match MACPIBAttributeId.fromU8 v with
    | some s => .ok (s, c')
    | none => .err (.InvalidMACPIBAttributeId v)

/-- The `FHPIBAttributeId` enum (`types.rs` 356-384): the one family with
16-bit wire codes. -/
inductive FHPIBAttributeId where
  | TrackParentEUI
  | BCInterval
  | UCExcludedChannels
  | BCExcludedChannels
  | UCDwellInterval
  | BCDwellInterval
  | ClockDrift
  | TimingAccuracy
  | UCChannelFunction
  | BCChannelFunction
  | UseParentBSIE
  | BrocastSchedId
  | UCFixedChannel
  | BCFixedChannel
  | PANSize
  | RoutingCost
  | RoutingMethod
  | EAPOLReady
  | FANTPSVersion
  | NetName
  | PANVersion
  | GTK0Hash
  | GTK1Hash
  | GTK2Hash
  | GTK3Hash
  | NeighborValidTime
  deriving DecidableEq, Repr

/-- `FromPrimitive::from_u16` for `FHPIBAttributeId`. -/
def FHPIBAttributeId.fromU16 (v : Nat) : Option FHPIBAttributeId :=
  match v with
  | 0x2000 => some .TrackParentEUI
  | 0x2001 => some .BCInterval
  | 0x2002 => some .UCExcludedChannels
  | 0x2003 => some .BCExcludedChannels
  | 0x2004 => some .UCDwellInterval
  | 0x2005 => some .BCDwellInterval
  | 0x2006 => some .ClockDrift
  | 0x2007 => some .TimingAccuracy
  | 0x2008 => some .UCChannelFunction
  | 0x2009 => some .BCChannelFunction
  | 0x200A => some .UseParentBSIE
  | 0x200B => some .BrocastSchedId
  | 0x200C => some .UCFixedChannel
  | 0x200D => some .BCFixedChannel
  | 0x200E => some .PANSize
  | 0x200F => some .RoutingCost
  | 0x2010 => some .RoutingMethod
  | 0x2011 => some .EAPOLReady
  | 0x2012 => some .FANTPSVersion
  | 0x2013 => some .NetName
  | 0x2014 => some .PANVersion
  | 0x2015 => some .GTK0Hash
  | 0x2016 => some .GTK1Hash
  | 0x2017 => some .GTK2Hash
  | 0x2018 => some .GTK3Hash
  | 0x2019 => some .NeighborValidTime
  | _ => none

/-- `impl TryFrom<&mut Cursor<&[u8]>> for FHPIBAttributeId` (`types.rs`
386-392): `let value = cursor.get_u16_le();` (panics when fewer than two
bytes remain) then table lookup. -/
def FHPIBAttributeId.tryFrom (c : Cursor) : DResult (FHPIBAttributeId × Cursor) :=
  match c.getU16le with
  | none => .panicked
  | some (v, c') =>
    match FHPIBAttributeId.fromU16 v with
    | some s => .ok (s, c')
    | none => .err (.InvalidFHPIBAttributeId v)

/-- The `SecurityPIBAttributeId` enum (`types.rs` 394-414). -/
inductive SecurityPIBAttributeId where
  | KeyTable
  | KeyTableEntries
  | DeviceTableEntries
  | SecurityLevelTableEntries
  | FrameCounter
  | AutoRequestSecurityLevel
  | AutoRequestKeyIdMode
  | AutoRequestKeySource
  | AutoRequestKeyIndex
  | DefaultKeySource
  | PANCoordExtendedAddress
  | PANCoordShortAddress
  | KeyIdLookupEntry
  | KeyIdDeviceEntry
  | KeyIdUsageEntry
  | KeyEntry
  | DeviceEntry
  | SecurityLevelEntry
  deriving DecidableEq, Repr

/-- `FromPrimitive::from_u8` for `SecurityPIBAttributeId`. -/
def SecurityPIBAttributeId.fromU8 (v : Nat) : Option SecurityPIBAttributeId :=
  match v with
  | 0x71 => some .KeyTable
  | 0x81 => some .KeyTableEntries
  | 0x82 => some .DeviceTableEntries
  | 0x83 => some .SecurityLevelTableEntries
  | 0x84 => some .FrameCounter
  | 0x85 => some .AutoRequestSecurityLevel
  | 0x86 => some .AutoRequestKeyIdMode
  | 0x87 => some .AutoRequestKeySource
  | 0x88 => some .AutoRequestKeyIndex
  | 0x89 => some .DefaultKeySource
  | 0x8A => some .PANCoordExtendedAddress
  | 0x8B => some .PANCoordShortAddress
  | 0xD0 => some .KeyIdLookupEntry
  | 0xD1 => some .KeyIdDeviceEntry
  | 0xD2 => some .KeyIdUsageEntry
  | 0xD3 => some .KeyEntry
  | 0xD4 => some .DeviceEntry
  | 0xD5 => some .SecurityLevelEntry
  | _ => none

/-- `impl TryFrom<&mut Cursor<&[u8]>> for SecurityPIBAttributeId`
(`types.rs` 416-422). -/
def SecurityPIBAttributeId.tryFrom (c : Cursor) : DResult (SecurityPIBAttributeId × Cursor) :=
  match c.getU8 with
  | none => .panicked
  | some (v, c') =>
    match SecurityPIBAttributeId.fromU8 v with
    | some s => .ok (s, c')
    | none => .err (.InvalidSecurityPIBAttributeId v)

/-- The `ScanType` enum (`types.rs` 424-431); note the gap at `0x04`. -/
inductive ScanType where
  | EnergyDetect
  | Active
  | Passive
  | Orphan
  | Active2
  deriving DecidableEq, Repr

/-- `FromPrimitive::from_u8` for `ScanType`. -/
def ScanType.fromU8 (v : Nat) : Option ScanType :=
  match v with
  | 0x00 => some .EnergyDetect
  | 0x01 => some .Active
  | 0x02 => some .Passive
  | 0x03 => some .Orphan
  | 0x05 => some .Active2
  | _ => none

/-- `impl TryFrom<&mut Cursor<&[u8]>> for ScanType` (`types.rs` 433-439). -/
def ScanType.tryFrom (c : Cursor) : DResult (ScanType × Cursor) :=
  match c.getU8 with
  | none => .panicked
  | some (v, c') =>
    match ScanType.fromU8 v with
    | some s => .ok (s, c')
    | none => .err (.InvalidScanType v)

/-- The `PhyId` enum (`types.rs` 441-447). -/
inductive PhyId where
  | STD_US_915_PHY_1
  | STD_ETSI_863_PHY_3
  | MRFSK_GENERIC_PHY_ID_BEGIN
  | MRFSK_GENERIC_PHY_ID_END
  deriving DecidableEq, Repr

/-- `FromPrimitive::from_u8` for `PhyId`. -/
def PhyId.fromU8 (v : Nat) : Option PhyId :=
  match v with
  | 0x01 => some .STD_US_915_PHY_1
  | 0x03 => some .STD_ETSI_863_PHY_3
  | 0x04 => some .MRFSK_GENERIC_PHY_ID_BEGIN
  | 0x06 => some .MRFSK_GENERIC_PHY_ID_END
  | _ => none

/-- `impl TryFrom<&mut Cursor<&[u8]>> for PhyId` (`types.rs` 449-455). -/
def PhyId.tryFrom (c : Cursor) : DResult (PhyId × Cursor) :=
  match c.getU8 with
  | none => .panicked
  | some (v, c') =>
    match PhyId.fromU8 v with
    | some s => .ok (s, c')
    | none => .err (.InvalidPhyId v)

/-- The `PermitJoin` enum (`types.rs` 457-461). -/
inductive PermitJoin where
  | AllBeaconRequests
  | OnlyIfPermitJoinIsEnabled
  deriving DecidableEq, Repr

/-- `FromPrimitive::from_u8` for `PermitJoin`. -/
def PermitJoin.fromU8 (v : Nat) : Option PermitJoin :=
  match v with
  | 0x00 => some .AllBeaconRequests
  | 0x01 => some .OnlyIfPermitJoinIsEnabled
  | _ => none

/-- `impl TryFrom<&mut Cursor<&[u8]>> for PermitJoin` (`types.rs` 463-469):
the source maps an out-of-table byte to `Error::InvalidPhyId(value)`. -/
def PermitJoin.tryFrom (c : Cursor) : DResult (PermitJoin × Cursor) :=
  match c.getU8 with
  | none => .panicked
  | some (v, c') =>
    match PermitJoin.fromU8 v with
    | some s => .ok (s, c')
    | none => .err (.InvalidPhyId v)

/-- The `MPMScan` enum (`types.rs` 471-475). -/
inductive MPMScan where
  | Disabled
  | Enabled
  deriving DecidableEq, Repr

/-- `FromPrimitive::from_u8` for `MPMScan`. -/
def MPMScan.fromU8 (v : Nat) : Option MPMScan :=
  match v with
  | 0x00 => some .Disabled
  | 0x01 => some .Enabled
  | _ => none

/-- `impl TryFrom<&mut Cursor<&[u8]>> for MPMScan` (`types.rs` 477-483):
the source maps an out-of-table byte to `Error::InvalidPhyId(value)`. -/
def MPMScan.tryFrom (c : Cursor) : DResult (MPMScan × Cursor) :=
  match c.getU8 with
  | none => .panicked
  | some (v, c') =>
    match MPMScan.fromU8 v with
    | some s => .ok (s, c')
    | none => .err (.InvalidPhyId v)

/-- The `MPMType` enum (`types.rs` 485-489). -/
inductive MPMType where
  | BPAN
  | NBPAN
  deriving DecidableEq, Repr

/-- `FromPrimitive::from_u8` for `MPMType`. -/
def MPMType.fromU8 (v : Nat) : Option MPMType :=
  match v with
  | 0x01 => some .BPAN
  | 0x02 => some .NBPAN
  | _ => none

/-- `impl TryFrom<&mut Cursor<&[u8]>> for MPMType` (`types.rs` 491-497):
the source maps an out-of-table byte to `Error::InvalidPhyId(value)`. -/
def MPMType.tryFrom (c : Cursor) : DResult (MPMType × Cursor) :=
  match c.getU8 with
  | none => .panicked
  | some (v, c') =>
    match MPMType.fromU8 v with
    | some s => .ok (s, c')
    | none => .err (.InvalidPhyId v)

/-- The `WiSUNAsyncOperation` enum (`types.rs` 499-503). -/
inductive WiSUNAsyncOperation where
  | Start
  | Stop
  deriving DecidableEq, Repr

/-- `FromPrimitive::from_u8` for `WiSUNAsyncOperation`. -/
def WiSUNAsyncOperation.fromU8 (v : Nat) : Option WiSUNAsyncOperation :=
  match v with
  | 0x00 => some .Start
  | 0x01 => some .Stop
  | _ => none

/-- `impl TryFrom<&mut Cursor<&[u8]>> for WiSUNAsyncOperation` (`types.rs`
505-511): the source maps an out-of-table byte to
`Error::InvalidPhyId(value)`. -/
def WiSUNAsyncOperation.tryFrom (c : Cursor) : DResult (WiSUNAsyncOperation × Cursor) :=
  match c.getU8 with
  | none => .panicked
  | some (v, c') =>
    match WiSUNAsyncOperation.fromU8 v with
    | some s => .ok (s, c')
    | none => .err (.InvalidPhyId v)

/-- Reading one byte succeeds exactly on the byte stored at the current
position, advancing the position by one. -/
theorem Cursor.getU8_eq_some {c : Cursor} {v : Nat} (h : c.data[c.pos]? = some v) :
    c.getU8 = some (v, ⟨c.data, c.pos + 1⟩) := by
  simp [Cursor.getU8, h]

/-- With no byte remaining, `get_u8` hits its panic condition. -/
theorem Cursor.getU8_eq_none {c : Cursor} (h : c.remaining < 1) :
    c.getU8 = none := by
  have hlen : c.data.length ≤ c.pos := by
    unfold Cursor.remaining at h; omega
  simp [Cursor.getU8, List.getElem?_eq_none hlen]

/-- Reading a little-endian 16-bit value combines the two bytes at the
current position and advances by two. -/
theorem Cursor.getU16le_eq_some {c : Cursor} {b0 b1 : Nat}
    (h0 : c.data[c.pos]? = some b0) (h1 : c.data[c.pos + 1]? = some b1) :
    c.getU16le = some (b0 + 256 * b1, ⟨c.data, c.pos + 2⟩) := by
  simp [Cursor.getU16le, h0, h1]

/-- With fewer than two bytes remaining, `get_u16_le` hits its panic
condition. -/
theorem Cursor.getU16le_eq_none {c : Cursor} (h : c.remaining < 2) :
    c.getU16le = none := by
  have hlen : c.data.length ≤ c.pos + 1 := by
    unfold Cursor.remaining at h; omega
  rcases hd : c.data[c.pos]? with _ | b0 <;>
    simp [Cursor.getU16le, hd, List.getElem?_eq_none hlen]

/-- With at least `n` bytes remaining (`n ≥ 1`), `read_exact` returns
exactly the next `n` bytes in wire order and advances by `n`. -/
theorem Cursor.readExact_eq_some {c : Cursor} {n : Nat} (hn : 1 ≤ n)
    (h : n ≤ c.remaining) :
    c.readExact n = some ((c.data.drop c.pos).take n, ⟨c.data, c.pos + n⟩) := by
  have : c.pos + n ≤ c.data.length := by
    unfold Cursor.remaining at h; omega
  simp [Cursor.readExact, this]

/-- With fewer than `n` bytes remaining, `read_exact` fails. -/
theorem Cursor.readExact_eq_none {c : Cursor} {n : Nat} (h : c.remaining < n) :
    c.readExact n = none := by
  have : ¬ c.pos + n ≤ c.data.length := by
    unfold Cursor.remaining at h; omega
  simp [Cursor.readExact, this]

/-- C2: the code violates the claim that every family reports out-of-table
codes with its own family-specific error kind.  Evaluated at out-of-table
inputs, the `PermitJoin`, `MPMScan`, `MPMType` and `WiSUNAsyncOperation`
decoders all construct `Error::InvalidPhyId` (the copy-paste slip flagged
in §9 of the specification), coercing four families onto the `PhyId`
family's error kind. -/
theorem C2_shared_invalid_phy_id_error :
    PermitJoin.tryFrom ⟨[0x02], 0⟩ = .err (.InvalidPhyId 2) ∧
    MPMScan.tryFrom ⟨[0x02], 0⟩ = .err (.InvalidPhyId 2) ∧
    MPMType.tryFrom ⟨[0x00], 0⟩ = .err (.InvalidPhyId 0) ∧
    WiSUNAsyncOperation.tryFrom ⟨[0x02], 0⟩ = .err (.InvalidPhyId 2) := by
  refine ⟨rfl, rfl, rfl, rfl⟩

/-- C3: decoding an `Address` from a buffer starting with mode byte `0x02`
followed by field bytes `b0..b7` yields `Addr16Bit` wrapping the short
address `[b1, b0]`, and with mode byte `0x03` yields `Addr64Bit` wrapping
`[b7, b6, b5, b4, b3, b2, b1, b0]`; in both cases the cursor ends at
position 9, having consumed the 1-byte mode plus the full 8-byte field. -/
theorem C3_address_decoding (b0 b1 b2 b3 b4 b5 b6 b7 : Nat) (rest : List Nat) :
    Address.tryFrom ⟨0x02 :: b0 :: b1 :: b2 :: b3 :: b4 :: b5 :: b6 :: b7 :: rest, 0⟩ =
      .ok (.Addr16Bit ⟨[b1, b0]⟩,
        ⟨0x02 :: b0 :: b1 :: b2 :: b3 :: b4 :: b5 :: b6 :: b7 :: rest, 9⟩) ∧
    Address.tryFrom ⟨0x03 :: b0 :: b1 :: b2 :: b3 :: b4 :: b5 :: b6 :: b7 :: rest, 0⟩ =
      .ok (.Addr64Bit ⟨[b7, b6, b5, b4, b3, b2, b1, b0]⟩,
        ⟨0x03 :: b0 :: b1 :: b2 :: b3 :: b4 :: b5 :: b6 :: b7 :: rest, 9⟩) := by
  constructor <;>
    simp [Address.tryFrom, AddressMode.tryFrom, AddressMode.fromU8, Cursor.getU8,
      Cursor.readExact, List.getD]

/-- C9: the byte `0xFF` is a valid wire code for `WiSUNAsyncFrameType`,
decoding to the enumerator named `Invalid` (and advancing by one byte)
rather than to an `InvalidFrameType(0xFF)` error. -/
theorem C9_frame_type_ff_is_valid :
    WiSUNAsyncFrameType.tryFrom ⟨[0xFF], 0⟩ = .ok (.Invalid, ⟨[0xFF], 1⟩) ∧
    WiSUNAsyncFrameType.tryFrom ⟨[0xFF], 0⟩ ≠ .err (.InvalidFrameType 0xFF) := by
  exact ⟨rfl, by decide⟩

/-- C10: the `ScanType` table has a gap at `0x04`: bytes `0x00`-`0x03` and
`0x05` decode to `EnergyDetect`, `Active`, `Passive`, `Orphan` and
`Active2`, while `0x04` decodes to the error `InvalidScanType(4)`. -/
theorem C10_scan_type_gap :
    ScanType.tryFrom ⟨[0x00], 0⟩ = .ok (.EnergyDetect, ⟨[0x00], 1⟩) ∧
    ScanType.tryFrom ⟨[0x01], 0⟩ = .ok (.Active, ⟨[0x01], 1⟩) ∧
    ScanType.tryFrom ⟨[0x02], 0⟩ = .ok (.Passive, ⟨[0x02], 1⟩) ∧
    ScanType.tryFrom ⟨[0x03], 0⟩ = .ok (.Orphan, ⟨[0x03], 1⟩) ∧
    ScanType.tryFrom ⟨[0x05], 0⟩ = .ok (.Active2, ⟨[0x05], 1⟩) ∧
    ScanType.tryFrom ⟨[0x04], 0⟩ = .err (.InvalidScanType 4) := by
  refine ⟨rfl, rfl, rfl, rfl, rfl, rfl⟩

/-- C1 counterexample: with zero bytes remaining, decoding a `Status` hits
the underflow panic of `bytes::Buf::get_u8` — it does not return the
`NotEnoughBytes` error the claim promises. -/
theorem C1_empty_buffer_counterexample :
    Status.tryFrom ⟨[], 0⟩ = DResult.panicked ∧
    Status.tryFrom ⟨[], 0⟩ ≠ DResult.err Error.NotEnoughBytes := by
  exact ⟨rfl, by decide⟩

/-- C1 amended: for every scalar code decode call (the sixteen 1-byte
families and the 2-byte `FHPIBAttributeId`), if the remaining buffer length
is less than the required width (including zero remaining bytes), the
decode panics — the underflow behaviour of `bytes::Buf::get_u8` and
`get_u16_le` — and in particular never returns the `NotEnoughBytes`
error. -/
theorem C1_scalar_underflow_panics :
    (∀ c : Cursor, c.remaining < 1 → Status.tryFrom c = .panicked) ∧
    (∀ c : Cursor, c.remaining < 1 → AddressMode.tryFrom c = .panicked) ∧
    (∀ c : Cursor, c.remaining < 1 → TxOption.tryFrom c = .panicked) ∧
    (∀ c : Cursor, c.remaining < 1 → SecurityLevel.tryFrom c = .panicked) ∧
    (∀ c : Cursor, c.remaining < 1 → KeyIdMode.tryFrom c = .panicked) ∧
    (∀ c : Cursor, c.remaining < 1 → WiSUNAsyncFrameType.tryFrom c = .panicked) ∧
    (∀ c : Cursor, c.remaining < 1 → AssociationStatus.tryFrom c = .panicked) ∧
    (∀ c : Cursor, c.remaining < 1 → DisassociateReason.tryFrom c = .panicked) ∧
    (∀ c : Cursor, c.remaining < 1 → MACPIBAttributeId.tryFrom c = .panicked) ∧
    (∀ c : Cursor, c.remaining < 1 → SecurityPIBAttributeId.tryFrom c = .panicked) ∧
    (∀ c : Cursor, c.remaining < 1 → ScanType.tryFrom c = .panicked) ∧
    (∀ c : Cursor, c.remaining < 1 → PhyId.tryFrom c = .panicked) ∧
    (∀ c : Cursor, c.remaining < 1 → PermitJoin.tryFrom c = .panicked) ∧
    (∀ c : Cursor, c.remaining < 1 → MPMScan.tryFrom c = .panicked) ∧
    (∀ c : Cursor, c.remaining < 1 → MPMType.tryFrom c = .panicked) ∧
    (∀ c : Cursor, c.remaining < 1 → WiSUNAsyncOperation.tryFrom c = .panicked) ∧
    (∀ c : Cursor, c.remaining < 2 → FHPIBAttributeId.tryFrom c = .panicked) := by
  refine ⟨?_, ?_, ?_, ?_, ?_, ?_, ?_, ?_, ?_, ?_, ?_, ?_, ?_, ?_, ?_, ?_, ?_⟩
  · intro c h; simp [Status.tryFrom, Cursor.getU8_eq_none h]
  · intro c h; simp [AddressMode.tryFrom, Cursor.getU8_eq_none h]
  · intro c h; simp [TxOption.tryFrom, Cursor.getU8_eq_none h]
  · intro c h; simp [SecurityLevel.tryFrom, Cursor.getU8_eq_none h]
  · intro c h; simp [KeyIdMode.tryFrom, Cursor.getU8_eq_none h]
  · intro c h; simp [WiSUNAsyncFrameType.tryFrom, Cursor.getU8_eq_none h]
  · intro c h; simp [AssociationStatus.tryFrom, Cursor.getU8_eq_none h]
  · intro c h; simp [DisassociateReason.tryFrom, Cursor.getU8_eq_none h]
  · intro c h; simp [MACPIBAttributeId.tryFrom, Cursor.getU8_eq_none h]
  · intro c h; simp [SecurityPIBAttributeId.tryFrom, Cursor.getU8_eq_none h]
  · intro c h; simp [ScanType.tryFrom, Cursor.getU8_eq_none h]
  · intro c h; simp [PhyId.tryFrom, Cursor.getU8_eq_none h]
  · intro c h; simp [PermitJoin.tryFrom, Cursor.getU8_eq_none h]
  · intro c h; simp [MPMScan.tryFrom, Cursor.getU8_eq_none h]
  · intro c h; simp [MPMType.tryFrom, Cursor.getU8_eq_none h]
  · intro c h; simp [WiSUNAsyncOperation.tryFrom, Cursor.getU8_eq_none h]
  · intro c h; simp [FHPIBAttributeId.tryFrom, Cursor.getU16le_eq_none h]

/-- C1 witness: the amended theorem applied at concrete underflowing
cursors — an empty buffer for `Status` (width 1) and a 1-byte buffer for
`FHPIBAttributeId` (width 2). -/
theorem C1_scalar_underflow_panics_witness :
    (Cursor.mk [] 0).remaining < 1 ∧ Status.tryFrom ⟨[], 0⟩ = DResult.panicked ∧
    (Cursor.mk [0x00] 0).remaining < 2 ∧
    FHPIBAttributeId.tryFrom ⟨[0x00], 0⟩ = DResult.panicked :=
  ⟨by decide, C1_scalar_underflow_panics.1 ⟨[], 0⟩ (by decide), by decide,
    C1_scalar_underflow_panics.2.2.2.2.2.2.2.2.2.2.2.2.2.2.2.2 ⟨[0x00], 0⟩ (by decide)⟩

/-- C4: for every scalar code family, whenever the required width of bytes
remains but the value read is not in the family's table, decoding returns
the error that family's decoder constructs, carrying exactly the raw 8-bit
value read (16-bit little-endian value for `FHPIBAttributeId`); it neither
panics nor maps the code to a default enumerator. -/
theorem C4_out_of_table_is_error :
    (∀ (c : Cursor) (v : Nat), c.data[c.pos]? = some v → Status.fromU8 v = none →
      Status.tryFrom c = .err (.InvalidStatus v)) ∧
    (∀ (c : Cursor) (v : Nat), c.data[c.pos]? = some v → AddressMode.fromU8 v = none →
      AddressMode.tryFrom c = .err (.InvalidAddressMode v)) ∧
    (∀ (c : Cursor) (v : Nat), c.data[c.pos]? = some v → TxOption.fromU8 v = none →
      TxOption.tryFrom c = .err (.InvalidTxOption v)) ∧
    (∀ (c : Cursor) (v : Nat), c.data[c.pos]? = some v → SecurityLevel.fromU8 v = none →
      SecurityLevel.tryFrom c = .err (.InvalidSecurityLevel v)) ∧
    (∀ (c : Cursor) (v : Nat), c.data[c.pos]? = some v → KeyIdMode.fromU8 v = none →
      KeyIdMode.tryFrom c = .err (.InvalidKeyIdMode v)) ∧
    (∀ (c : Cursor) (v : Nat), c.data[c.pos]? = some v → WiSUNAsyncFrameType.fromU8 v = none →
      WiSUNAsyncFrameType.tryFrom c = .err (.InvalidFrameType v)) ∧
    (∀ (c : Cursor) (v : Nat), c.data[c.pos]? = some v → AssociationStatus.fromU8 v = none →
      AssociationStatus.tryFrom c = .err (.InvalidAssociationStatus v)) ∧
    (∀ (c : Cursor) (v : Nat), c.data[c.pos]? = some v → DisassociateReason.fromU8 v = none →
      DisassociateReason.tryFrom c = .err (.InvalidDisassociationReason v)) ∧
    (∀ (c : Cursor) (v : Nat), c.data[c.pos]? = some v → MACPIBAttributeId.fromU8 v = none →
      MACPIBAttributeId.tryFrom c = .err (.InvalidMACPIBAttributeId v)) ∧
    (∀ (c : Cursor) (v : Nat), c.data[c.pos]? = some v → SecurityPIBAttributeId.fromU8 v = none →
      SecurityPIBAttributeId.tryFrom c = .err (.InvalidSecurityPIBAttributeId v)) ∧
    (∀ (c : Cursor) (v : Nat), c.data[c.pos]? = some v → ScanType.fromU8 v = none →
      ScanType.tryFrom c = .err (.InvalidScanType v)) ∧
    (∀ (c : Cursor) (v : Nat), c.data[c.pos]? = some v → PhyId.fromU8 v = none →
      PhyId.tryFrom c = .err (.InvalidPhyId v)) ∧
    (∀ (c : Cursor) (v : Nat), c.data[c.pos]? = some v → PermitJoin.fromU8 v = none →
      PermitJoin.tryFrom c = .err (.InvalidPhyId v)) ∧
    (∀ (c : Cursor) (v : Nat), c.data[c.pos]? = some v → MPMScan.fromU8 v = none →
      MPMScan.tryFrom c = .err (.InvalidPhyId v)) ∧
    (∀ (c : Cursor) (v : Nat), c.data[c.pos]? = some v → MPMType.fromU8 v = none →
      MPMType.tryFrom c = .err (.InvalidPhyId v)) ∧
    (∀ (c : Cursor) (v : Nat), c.data[c.pos]? = some v → WiSUNAsyncOperation.fromU8 v = none →
      WiSUNAsyncOperation.tryFrom c = .err (.InvalidPhyId v)) ∧
    (∀ (c : Cursor) (b0 b1 : Nat), c.data[c.pos]? = some b0 → c.data[c.pos + 1]? = some b1 →
      FHPIBAttributeId.fromU16 (b0 + 256 * b1) = none →
      FHPIBAttributeId.tryFrom c = .err (.InvalidFHPIBAttributeId (b0 + 256 * b1))) := by
  refine ⟨?_, ?_, ?_, ?_, ?_, ?_, ?_, ?_, ?_, ?_, ?_, ?_, ?_, ?_, ?_, ?_, ?_⟩
  · intro c v hv hn; simp [Status.tryFrom, Cursor.getU8_eq_some hv, hn]
  · intro c v hv hn; simp [AddressMode.tryFrom, Cursor.getU8_eq_some hv, hn]
  · intro c v hv hn; simp [TxOption.tryFrom, Cursor.getU8_eq_some hv, hn]
  · intro c v hv hn; simp [SecurityLevel.tryFrom, Cursor.getU8_eq_some hv, hn]
  · intro c v hv hn; simp [KeyIdMode.tryFrom, Cursor.getU8_eq_some hv, hn]
  · intro c v hv hn; simp [WiSUNAsyncFrameType.tryFrom, Cursor.getU8_eq_some hv, hn]
  · intro c v hv hn; simp [AssociationStatus.tryFrom, Cursor.getU8_eq_some hv, hn]
  · intro c v hv hn; simp [DisassociateReason.tryFrom, Cursor.getU8_eq_some hv, hn]
  · intro c v hv hn; simp [MACPIBAttributeId.tryFrom, Cursor.getU8_eq_some hv, hn]
  · intro c v hv hn; simp [SecurityPIBAttributeId.tryFrom, Cursor.getU8_eq_some hv, hn]
  · intro c v hv hn; simp [ScanType.tryFrom, Cursor.getU8_eq_some hv, hn]
  · intro c v hv hn; simp [PhyId.tryFrom, Cursor.getU8_eq_some hv, hn]
  · intro c v hv hn; simp [PermitJoin.tryFrom, Cursor.getU8_eq_some hv, hn]
  · intro c v hv hn; simp [MPMScan.tryFrom, Cursor.getU8_eq_some hv, hn]
  · intro c v hv hn; simp [MPMType.tryFrom, Cursor.getU8_eq_some hv, hn]
  · intro c v hv hn; simp [WiSUNAsyncOperation.tryFrom, Cursor.getU8_eq_some hv, hn]
  · intro c b0 b1 h0 h1 hn
    simp [FHPIBAttributeId.tryFrom, Cursor.getU16le_eq_some h0 h1, hn]

/-- C4 witness: the theorem applied at the out-of-table byte `0x05` for
`Status` and the out-of-table little-endian short `0xFFFF` for
`FHPIBAttributeId`. -/
theorem C4_out_of_table_is_error_witness :
    Status.tryFrom ⟨[0x05], 0⟩ = DResult.err (Error.InvalidStatus 5) ∧
    FHPIBAttributeId.tryFrom ⟨[0xFF, 0xFF], 0⟩ =
      DResult.err (Error.InvalidFHPIBAttributeId (0xFF + 256 * 0xFF)) :=
  ⟨C4_out_of_table_is_error.1 ⟨[0x05], 0⟩ 5 rfl rfl,
    C4_out_of_table_is_error.2.2.2.2.2.2.2.2.2.2.2.2.2.2.2.2 ⟨[0xFF, 0xFF], 0⟩ 0xFF 0xFF
      rfl rfl rfl⟩

/-- C5: for each fixed-width byte field (`ShortAddress` with L=2,
`ExtendedAddress` with L=8, `KeySource` with L=8), when at least L bytes
remain the decoder consumes exactly L bytes and returns them reversed; when
fewer than L bytes remain it fails with `NotEnoughBytes` and returns no
partial value. -/
theorem C5_fixed_width_byte_fields :
    (∀ c : Cursor, 2 ≤ c.remaining →
      ShortAddress.tryFrom c =
        .ok (⟨((c.data.drop c.pos).take 2).reverse⟩, ⟨c.data, c.pos + 2⟩)) ∧
    (∀ c : Cursor, c.remaining < 2 → ShortAddress.tryFrom c = .err .NotEnoughBytes) ∧
    (∀ c : Cursor, 8 ≤ c.remaining →
      ExtendedAddress.tryFrom c =
        .ok (⟨((c.data.drop c.pos).take 8).reverse⟩, ⟨c.data, c.pos + 8⟩)) ∧
    (∀ c : Cursor, c.remaining < 8 → ExtendedAddress.tryFrom c = .err .NotEnoughBytes) ∧
    (∀ c : Cursor, 8 ≤ c.remaining →
      KeySource.tryFrom c =
        .ok (⟨((c.data.drop c.pos).take 8).reverse⟩, ⟨c.data, c.pos + 8⟩)) ∧
    (∀ c : Cursor, c.remaining < 8 → KeySource.tryFrom c = .err .NotEnoughBytes) := by
  refine ⟨?_, ?_, ?_, ?_, ?_, ?_⟩
  · intro c h; simp [ShortAddress.tryFrom, Cursor.readExact_eq_some (by omega) h]
  · intro c h; simp [ShortAddress.tryFrom, Cursor.readExact_eq_none h]
  · intro c h; simp [ExtendedAddress.tryFrom, Cursor.readExact_eq_some (by omega) h]
  · intro c h; simp [ExtendedAddress.tryFrom, Cursor.readExact_eq_none h]
  · intro c h; simp [KeySource.tryFrom, Cursor.readExact_eq_some (by omega) h]
  · intro c h; simp [KeySource.tryFrom, Cursor.readExact_eq_none h]

/-- C5 witness: the theorem applied at a 3-byte buffer (enough for a
`ShortAddress`) and a 1-byte buffer (not enough). -/
theorem C5_fixed_width_byte_fields_witness :
    2 ≤ (Cursor.mk [1, 2, 3] 0).remaining ∧
    ShortAddress.tryFrom ⟨[1, 2, 3], 0⟩ =
      DResult.ok (⟨((([1, 2, 3] : List Nat).drop 0).take 2).reverse⟩, ⟨[1, 2, 3], 0 + 2⟩) ∧
    (Cursor.mk [1] 0).remaining < 2 ∧
    ShortAddress.tryFrom ⟨[1], 0⟩ = DResult.err Error.NotEnoughBytes :=
  ⟨by decide, C5_fixed_width_byte_fields.1 ⟨[1, 2, 3], 0⟩ (by decide), by decide,
    C5_fixed_width_byte_fields.2.1 ⟨[1], 0⟩ (by decide)⟩

/-- C6: for every code value present in a family's table, decoding the
byte (or little-endian short for `FHPIBAttributeId`) holding that code
yields the corresponding named enumerator and advances the cursor by
exactly the declared width; concretely for `Status`, `0x00` decodes to
`Success`, `0x18` to `Unsupported`, and the out-of-table `0x05` to the
error `InvalidStatus(5)`. -/
theorem C6_in_table_decodes :
    (∀ (c : Cursor) (v : Nat) (s : Status), c.data[c.pos]? = some v →
      Status.fromU8 v = some s → Status.tryFrom c = .ok (s, ⟨c.data, c.pos + 1⟩)) ∧
    (∀ (c : Cursor) (v : Nat) (s : AddressMode), c.data[c.pos]? = some v →
      AddressMode.fromU8 v = some s → AddressMode.tryFrom c = .ok (s, ⟨c.data, c.pos + 1⟩)) ∧
    (∀ (c : Cursor) (v : Nat) (s : TxOption), c.data[c.pos]? = some v →
      TxOption.fromU8 v = some s → TxOption.tryFrom c = .ok (s, ⟨c.data, c.pos + 1⟩)) ∧
    (∀ (c : Cursor) (v : Nat) (s : SecurityLevel), c.data[c.pos]? = some v →
      SecurityLevel.fromU8 v = some s → SecurityLevel.tryFrom c = .ok (s, ⟨c.data, c.pos + 1⟩)) ∧
    (∀ (c : Cursor) (v : Nat) (s : KeyIdMode), c.data[c.pos]? = some v →
      KeyIdMode.fromU8 v = some s → KeyIdMode.tryFrom c = .ok (s, ⟨c.data, c.pos + 1⟩)) ∧
    (∀ (c : Cursor) (v : Nat) (s : WiSUNAsyncFrameType), c.data[c.pos]? = some v →
      WiSUNAsyncFrameType.fromU8 v = some s →
      WiSUNAsyncFrameType.tryFrom c = .ok (s, ⟨c.data, c.pos + 1⟩)) ∧
    (∀ (c : Cursor) (v : Nat) (s : AssociationStatus), c.data[c.pos]? = some v →
      AssociationStatus.fromU8 v = some s →
      AssociationStatus.tryFrom c = .ok (s, ⟨c.data, c.pos + 1⟩)) ∧
    (∀ (c : Cursor) (v : Nat) (s : DisassociateReason), c.data[c.pos]? = some v →
      DisassociateReason.fromU8 v = some s →
      DisassociateReason.tryFrom c = .ok (s, ⟨c.data, c.pos + 1⟩)) ∧
    (∀ (c : Cursor) (v : Nat) (s : MACPIBAttributeId), c.data[c.pos]? = some v →
      MACPIBAttributeId.fromU8 v = some s →
      MACPIBAttributeId.tryFrom c = .ok (s, ⟨c.data, c.pos + 1⟩)) ∧
    (∀ (c : Cursor) (v : Nat) (s : SecurityPIBAttributeId), c.data[c.pos]? = some v →
      SecurityPIBAttributeId.fromU8 v = some s →
      SecurityPIBAttributeId.tryFrom c = .ok (s, ⟨c.data, c.pos + 1⟩)) ∧
    (∀ (c : Cursor) (v : Nat) (s : ScanType), c.data[c.pos]? = some v →
      ScanType.fromU8 v = some s → ScanType.tryFrom c = .ok (s, ⟨c.data, c.pos + 1⟩)) ∧
    (∀ (c : Cursor) (v : Nat) (s : PhyId), c.data[c.pos]? = some v →
      PhyId.fromU8 v = some s → PhyId.tryFrom c = .ok (s, ⟨c.data, c.pos + 1⟩)) ∧
    (∀ (c : Cursor) (v : Nat) (s : PermitJoin), c.data[c.pos]? = some v →
      PermitJoin.fromU8 v = some s → PermitJoin.tryFrom c = .ok (s, ⟨c.data, c.pos + 1⟩)) ∧
    (∀ (c : Cursor) (v : Nat) (s : MPMScan), c.data[c.pos]? = some v →
      MPMScan.fromU8 v = some s → MPMScan.tryFrom c = .ok (s, ⟨c.data, c.pos + 1⟩)) ∧
    (∀ (c : Cursor) (v : Nat) (s : MPMType), c.data[c.pos]? = some v →
      MPMType.fromU8 v = some s → MPMType.tryFrom c = .ok (s, ⟨c.data, c.pos + 1⟩)) ∧
    (∀ (c : Cursor) (v : Nat) (s : WiSUNAsyncOperation), c.data[c.pos]? = some v →
      WiSUNAsyncOperation.fromU8 v = some s →
      WiSUNAsyncOperation.tryFrom c = .ok (s, ⟨c.data, c.pos + 1⟩)) ∧
    (∀ (c : Cursor) (b0 b1 : Nat) (s : FHPIBAttributeId), c.data[c.pos]? = some b0 →
      c.data[c.pos + 1]? = some b1 → FHPIBAttributeId.fromU16 (b0 + 256 * b1) = some s →
      FHPIBAttributeId.tryFrom c = .ok (s, ⟨c.data, c.pos + 2⟩)) ∧
    Status.tryFrom ⟨[0x00], 0⟩ = .ok (.Success, ⟨[0x00], 1⟩) ∧
    Status.tryFrom ⟨[0x18], 0⟩ = .ok (.Unsupported, ⟨[0x18], 1⟩) ∧
    Status.tryFrom ⟨[0x05], 0⟩ = .err (.InvalidStatus 5) := by
  refine ⟨?_, ?_, ?_, ?_, ?_, ?_, ?_, ?_, ?_, ?_, ?_, ?_, ?_, ?_, ?_, ?_, ?_, rfl, rfl, rfl⟩
  · intro c v s hv hs; simp [Status.tryFrom, Cursor.getU8_eq_some hv, hs]
  · intro c v s hv hs; simp [AddressMode.tryFrom, Cursor.getU8_eq_some hv, hs]
  · intro c v s hv hs; simp [TxOption.tryFrom, Cursor.getU8_eq_some hv, hs]
  · intro c v s hv hs; simp [SecurityLevel.tryFrom, Cursor.getU8_eq_some hv, hs]
  · intro c v s hv hs; simp [KeyIdMode.tryFrom, Cursor.getU8_eq_some hv, hs]
  · intro c v s hv hs; simp [WiSUNAsyncFrameType.tryFrom, Cursor.getU8_eq_some hv, hs]
  · intro c v s hv hs; simp [AssociationStatus.tryFrom, Cursor.getU8_eq_some hv, hs]
  · intro c v s hv hs; simp [DisassociateReason.tryFrom, Cursor.getU8_eq_some hv, hs]
  · intro c v s hv hs; simp [MACPIBAttributeId.tryFrom, Cursor.getU8_eq_some hv, hs]
  · intro c v s hv hs; simp [SecurityPIBAttributeId.tryFrom, Cursor.getU8_eq_some hv, hs]
  · intro c v s hv hs; simp [ScanType.tryFrom, Cursor.getU8_eq_some hv, hs]
  · intro c v s hv hs; simp [PhyId.tryFrom, Cursor.getU8_eq_some hv, hs]
  · intro c v s hv hs; simp [PermitJoin.tryFrom, Cursor.getU8_eq_some hv, hs]
  · intro c v s hv hs; simp [MPMScan.tryFrom, Cursor.getU8_eq_some hv, hs]
  · intro c v s hv hs; simp [MPMType.tryFrom, Cursor.getU8_eq_some hv, hs]
  · intro c v s hv hs; simp [WiSUNAsyncOperation.tryFrom, Cursor.getU8_eq_some hv, hs]
  · intro c b0 b1 s h0 h1 hs
    simp [FHPIBAttributeId.tryFrom, Cursor.getU16le_eq_some h0 h1, hs]

/-- C6 witness: the theorem applied at the in-table `Status` byte `0x18`
and the in-table `FHPIBAttributeId` short `0x2001` (`BCInterval`). -/
theorem C6_in_table_decodes_witness :
    Status.tryFrom ⟨[0x18], 0⟩ = DResult.ok (Status.Unsupported, ⟨[0x18], 0 + 1⟩) ∧
    FHPIBAttributeId.tryFrom ⟨[0x01, 0x20], 0⟩ =
      DResult.ok (FHPIBAttributeId.BCInterval, ⟨[0x01, 0x20], 0 + 2⟩) :=
  ⟨C6_in_table_decodes.1 ⟨[0x18], 0⟩ 0x18 .Unsupported rfl rfl,
    C6_in_table_decodes.2.2.2.2.2.2.2.2.2.2.2.2.2.2.2.2.1 ⟨[0x01, 0x20], 0⟩ 0x01 0x20
      .BCInterval rfl rfl rfl⟩

/-- C7: `FHPIBAttributeId` is decoded by reading a 2-byte little-endian
integer and looking it up in its table: the bytes `[0x00, 0x20]` (value
`0x2000`) decode to `TrackParentEUI`, the bytes `[0xFF, 0xFF]` decode to
the error `InvalidFHPIBAttributeId(0xFFFF)` carrying the full 16-bit value,
and in general a buffer starting `b0, b1` is looked up at `b0 + 256 * b1`. -/
theorem C7_fhpib_little_endian_lookup :
    FHPIBAttributeId.tryFrom ⟨[0x00, 0x20], 0⟩ =
      .ok (.TrackParentEUI, ⟨[0x00, 0x20], 2⟩) ∧
    FHPIBAttributeId.tryFrom ⟨[0xFF, 0xFF], 0⟩ =
      .err (.InvalidFHPIBAttributeId 0xFFFF) ∧
    (∀ (b0 b1 : Nat) (rest : List Nat),
      FHPIBAttributeId.tryFrom ⟨b0 :: b1 :: rest, 0⟩ =
        match FHPIBAttributeId.fromU16 (b0 + 256 * b1) with
        | some s => .ok (s, ⟨b0 :: b1 :: rest, 2⟩)
        | none => .err (.InvalidFHPIBAttributeId (b0 + 256 * b1))) := by
  refine ⟨rfl, rfl, ?_⟩
  intro b0 b1 rest
  rcases h : FHPIBAttributeId.fromU16 (b0 + 256 * b1) with _ | s <;>
    simp [FHPIBAttributeId.tryFrom, Cursor.getU16le, h]

/-- C8: re-reversing a decoded `ShortAddress`, `ExtendedAddress` or
`KeySource` reproduces exactly the wire bytes that were consumed, so the
source's array reversal is an involutive wire-format correction. -/
theorem C8_reversal_roundtrip :
    (∀ (c : Cursor) (a : ShortAddress) (c' : Cursor),
      ShortAddress.tryFrom c = .ok (a, c') →
      a.address.reverse = (c.data.drop c.pos).take 2) ∧
    (∀ (c : Cursor) (a : ExtendedAddress) (c' : Cursor),
      ExtendedAddress.tryFrom c = .ok (a, c') →
      a.address.reverse = (c.data.drop c.pos).take 8) ∧
    (∀ (c : Cursor) (k : KeySource) (c' : Cursor),
      KeySource.tryFrom c = .ok (k, c') →
      k.key.reverse = (c.data.drop c.pos).take 8) := by
  refine ⟨?_, ?_, ?_⟩
  · intro c a c' h
    unfold ShortAddress.tryFrom at h
    rcases hE : c.readExact 2 with _ | ⟨bs, c''⟩ <;> rw [hE] at h
    · simp at h
    · unfold Cursor.readExact at hE
      split at hE
      · simp_all
        obtain ⟨ha, -⟩ := h
        subst ha
        simp
      · simp at hE
  · intro c a c' h
    unfold ExtendedAddress.tryFrom at h
    rcases hE : c.readExact 8 with _ | ⟨bs, c''⟩ <;> rw [hE] at h
    · simp at h
    · unfold Cursor.readExact at hE
      split at hE
      · simp_all
        obtain ⟨ha, -⟩ := h
        subst ha
        simp
      · simp at hE
  · intro c k c' h
    unfold KeySource.tryFrom at h
    rcases hE : c.readExact 8 with _ | ⟨bs, c''⟩ <;> rw [hE] at h
    · simp at h
    · unfold Cursor.readExact at hE
      split at hE
      · simp_all
        obtain ⟨ha, -⟩ := h
        subst ha
        simp
      · simp at hE

/-- C8 witness: the theorem applied to a `ShortAddress` decoded from the
wire bytes `[1, 2]`: reversing `[2, 1]` gives back the consumed bytes. -/
theorem C8_reversal_roundtrip_witness :
    (ShortAddress.mk [2, 1]).address.reverse = (([1, 2] : List Nat).drop 0).take 2 :=
  C8_reversal_roundtrip.1 ⟨[1, 2], 0⟩ ⟨[2, 1]⟩ ⟨[1, 2], 2⟩ rfl
